import Mathlib

/-!
Verification of the chat-with-any-website React client.

Shallow embedding of the five source components (App, ChatBox, URLInput,
VectorSelection, SystemInfo).  Event handlers become pure Lean functions
from the component's local state plus the settlement of the one network
request they issue (the backend is external, so the response is a
parameter) to the new state, the list of HTTP requests issued, and the
list of callback invocations emitted to the parent component.
-/

namespace ChatSite

/-- A JavaScript value as it appears in backend-provided identifier fields
(`id`, `vector_db_id`): `null`/absent, a number, or a string. -/
inductive JsVal where
  | null
  | num (n : Int)
  | str (s : String)
  deriving DecidableEq, Repr

/-- JavaScript truthiness of a `JsVal`: `null` and `undefined` are falsy,
`0` is falsy, the empty string is falsy, everything else is truthy. -/
def JsVal.truthy : JsVal → Bool
  | .null => false
  | .num n => n != 0
  | .str s => s != ""

/-- JavaScript strict equality `===` on identifier values: equal kind and
equal payload. -/
def JsVal.strictEq : JsVal → JsVal → Bool
  | .null, .null => true
  | .num a, .num b => a == b
  | .str a, .str b => a == b
  | _, _ => false

/-- `listStarts pat s` is true when `pat` is an initial segment of `s`. -/
def listStarts : List Char → List Char → Bool
  | [], _ => true
  | _ :: _, [] => false
  | p :: ps, c :: cs => p == c && listStarts ps cs

/-- `listHasSub pat s` is true when `pat` occurs contiguously in `s`. -/
def listHasSub (pat : List Char) : List Char → Bool
  | [] => listStarts pat []
  | c :: cs => listStarts pat (c :: cs) || listHasSub pat cs

/-- Embedding of JavaScript `s.includes(pat)`: substring containment. -/
def jsIncludes (s pat : String) : Bool :=
  listHasSub pat.data s.data

/-- Drop leading whitespace characters. -/
def dropLeadWs : List Char → List Char
  | [] => []
  | c :: cs => if c.isWhitespace then dropLeadWs cs else c :: cs

/-- Embedding of JavaScript `s.trim()`: strip whitespace from both ends. -/
def jsTrim (s : String) : String :=
  ⟨(dropLeadWs ((dropLeadWs s.data).reverse)).reverse⟩

theorem listStarts_self (l : List Char) : listStarts l l = true := by
  induction l with
  | nil => rfl
  | cons c cs ih => simp [listStarts, ih]

theorem listStarts_append (l t : List Char) : listStarts l (l ++ t) = true := by
  induction l with
  | nil => rfl
  | cons c cs ih => simp [listStarts, ih]

theorem listHasSub_self (l : List Char) : listHasSub l l = true := by
  cases l with
  | nil => rfl
  | cons c cs => simp [listHasSub, listStarts_self]

theorem listHasSub_append_left (pre l : List Char) :
    listHasSub l (pre ++ l) = true := by
  induction pre with
  | nil => simpa using listHasSub_self l
  | cons c cs ih => simp [listHasSub, ih]

theorem listHasSub_of_starts {pat s : List Char} (h : listStarts pat s = true) :
    listHasSub pat s = true := by
  cases s with
  | nil => simpa [listHasSub] using h
  | cons c cs => simp [listHasSub, h]

theorem listHasSub_infix (pre l suf : List Char) :
    listHasSub l (pre ++ (l ++ suf)) = true := by
  induction pre with
  | nil => exact listHasSub_of_starts (listStarts_append l suf)
  | cons c cs ih => simp [listHasSub, ih]

/-- A string contains itself with any prefix attached (JS `includes`). -/
theorem jsIncludes_append (pre s : String) :
    jsIncludes (pre ++ s) s = true := by
  simpa [jsIncludes, String.data_append] using listHasSub_append_left pre.data s.data

/-- A string contains any middle segment (JS `includes`). -/
theorem jsIncludes_middle (pre s suf : String) :
    jsIncludes (pre ++ s ++ suf) s = true := by
  simpa [jsIncludes, String.data_append, List.append_assoc] using
    listHasSub_infix pre.data s.data suf.data

/-- The object emitted to `App` by `URLInput.onWebsiteVectorized` and
`VectorSelection.onSelectWebsite`, and held by `App` as `selectedWebsite`:
`{websiteId, vectorDbId, url}`. -/
structure SelectedSite where
  websiteId : JsVal
  vectorDbId : JsVal
  url : String
  deriving DecidableEq, Repr

/-- A chat transcript entry (ChatBox.jsx message objects).  The source
builds `{id, text, sender}` and, for errors only, `isError: true`; the
absent field reads as falsy, embedded as default `false`. -/
structure ChatMsg where
  id : Nat
  text : String
  sender : String
  isError : Bool := false
  deriving DecidableEq, Repr

/-- The body of `POST /api/websites/chat/` built in ChatBox.handleSubmit. -/
structure ChatReq where
  vector_db_id : JsVal
  query : String
  deriving DecidableEq, Repr

/-- The fixed text of the message appended in the `catch` branch of
ChatBox.handleSubmit. -/
def chatErrorText : String :=
  "Sorry, there was an error processing your request. Please try again."

/-- The message appended when the chat request settles: the `try`
continuation on success, the `catch` branch on failure (ChatBox.jsx
lines 44-61).  `now` is the `Date.now()` read in the submit handler. -/
def settleMsg (now : Nat) : Except String String → ChatMsg
  | .ok answer => { id := now + 1, text := answer, sender := "ai" }
  | .error _ => { id := now + 1, text := chatErrorText, sender := "system", isError := true }

/-- ChatBox.handleSubmit (ChatBox.jsx lines 22-65) with the settlement of
its single POST folded in: given the input field, the selected site, the
current transcript and the request outcome, returns the final transcript
and the list of requests issued.  The guard is
`if (!input.trim() || !selectedWebsite) return`. -/
def chatHandleSubmit (input : String) (selectedWebsite : Option SelectedSite)
    (messages : List ChatMsg) (now : Nat) (outcome : Except String String) :
    List ChatMsg × List ChatReq :=
  match selectedWebsite with
  | none => (messages, [])
  | some site =>
    if jsTrim input = "" then (messages, [])
    else
      (messages ++ [{ id := now, text := input, sender := "user" }, settleMsg now outcome],
       [{ vector_db_id := site.vectorDbId, query := input }])

/-- The chat panel state relevant to the transcript. -/
structure ChatState where
  selectedWebsite : Option SelectedSite
  messages : List ChatMsg
  deriving Repr

/-- UI events reaching the chat panel: a change of the selected site
(prop update from `App`) or a form submission with its settlement. -/
inductive ChatEvent where
  | selectSite (w : Option SelectedSite)
  | submit (input : String) (now : Nat) (outcome : Except String String)

/-- One event step of the chat panel.  A selected-site change runs the
`useEffect` on `[selectedWebsite]` that clears the transcript
(ChatBox.jsx lines 12-15); a submit runs `handleSubmit`. -/
def chatStep (s : ChatState) : ChatEvent → ChatState
  | .selectSite w => { selectedWebsite := w, messages := [] }
  | .submit input now outcome =>
    { s with
      messages := (chatHandleSubmit input s.selectedWebsite s.messages now outcome).1 }

/-- Folding `chatStep` over a sequence of events. -/
def chatRun (s : ChatState) : List ChatEvent → ChatState
  | [] => s
  | e :: es => chatRun (chatStep s e) es

/-- JS `a || b` where `a` is an optional string: absent (`none`) and the
empty string are falsy, so the fallback `b` is used for both. -/
def jsOrElse (a : Option String) (b : String) : String :=
  match a with
  | some s => if s = "" then b else s
  | none => b

/-- The scrape success payload `{website_id, vector_db_id, pages_scraped}`
returned by `POST /api/websites/scrape/`. -/
structure ScrapeResp where
  website_id : JsVal
  vector_db_id : JsVal
  pages_scraped : Nat
  deriving DecidableEq, Repr

/-- A scrape failure: the optional backend error body
(`err.response?.data?.error`) and the error object message. -/
structure ScrapeErr where
  backendError : Option String
  message : String
  deriving Repr

/-- Requests the URL form can issue. -/
inductive UrlRequest where
  | scrape (url : String)
  deriving DecidableEq, Repr

/-- Outcome of URLInput.handleSubmit: the local error and success strings,
the requests issued, and the invocations of `onWebsiteVectorized`. -/
structure UrlSubmitResult where
  error : String
  success : String
  requests : List UrlRequest
  emitted : List SelectedSite
  deriving Repr

/-- URLInput.handleSubmit (part_001 lines 223-260), with the settlement of
its single POST folded in.  `parsesAsURL` abstracts the browser
`new URL(url)` constructor (an external platform API): it is true exactly
when the constructor does not throw, i.e. when the string parses as an
absolute URL. -/
def urlHandleSubmit (url : String) (parsesAsURL : String → Bool)
    (outcome : Except ScrapeErr ScrapeResp) : UrlSubmitResult :=
  if url = "" then
    { error := "Please enter a URL", success := "", requests := [], emitted := [] }
  else if parsesAsURL url = false then
    { error := "Please enter a valid URL (including http:// or https://)",
      success := "", requests := [], emitted := [] }
  else
    match outcome with
    | .ok resp =>
      { error := "",
        success := "Successfully scraped and vectorized " ++
          toString resp.pages_scraped ++ " pages from " ++ url,
        requests := [.scrape url],
        emitted := [{ websiteId := resp.website_id,
                      vectorDbId := resp.vector_db_id, url := url }] }
    | .error e =>
      { error := jsOrElse e.backendError "Failed to scrape the website. Please try again.",
        success := "", requests := [.scrape url], emitted := [] }

/-- App.handleWebsiteVectorized (part_000 lines 11-13): overwrites the
root `selectedWebsite` state with the surfaced site. -/
def appHandleWebsiteVectorized (selectedWebsite : Option SelectedSite)
    (website : SelectedSite) : Option SelectedSite :=
  some website

/-- App.handleSelectWebsite (part_000 lines 15-17): overwrites the root
`selectedWebsite` state with the roster's emission (possibly `null`). -/
def appHandleSelectWebsite (selectedWebsite : Option SelectedSite)
    (website : Option SelectedSite) : Option SelectedSite :=
  website

/-- A roster row as returned by `GET /api/websites/`. -/
structure Website where
  id : JsVal
  url : String
  title : Option String
  vector_db_id : JsVal
  date_scraped : String
  deriving DecidableEq, Repr

/-- Requests the roster component can issue. -/
inductive RosterRequest where
  | getWebsites
  | deleteVectorized (vector_db_id : JsVal)
  deriving DecidableEq, Repr

/-- VectorSelection local state (part_001 lines 6-10). -/
structure RosterState where
  websites : List Website
  isLoading : Bool
  error : String
  selectedWebsite : Option Website
  deletingId : Option JsVal
  deriving Repr

/-- The filter in VectorSelection.fetchWebsites (part_001 line 17):
`response.data.filter(website => website.vector_db_id)`. -/
def vectorizedWebsites (resp : List Website) : List Website :=
  resp.filter (fun website => website.vector_db_id.truthy)

/-- Settlement of a `GET /api/websites/` request. -/
inductive FetchOutcome where
  | ok (resp : List Website)
  | fail

/-- VectorSelection.fetchWebsites (part_001 lines 12-24) applied to the
outcome of its GET. -/
def fetchWebsites (s : RosterState) (outcome : FetchOutcome) : RosterState :=
  match outcome with
  | .ok resp =>
    { s with websites := vectorizedWebsites resp, isLoading := false }
  | .fail =>
    { s with error := "Failed to load vectorized websites", isLoading := false }

/-- Outcome of a roster row click (part_001 lines 30-40). -/
structure SelectResult where
  state : RosterState
  emitted : List (Option SelectedSite)
  deriving Repr

/-- VectorSelection.handleSelectWebsite: records the row locally and
emits `{websiteId, vectorDbId, url}` to the parent. -/
def rosterSelect (s : RosterState) (website : Website) : SelectResult :=
  { state := { s with selectedWebsite := some website },
    emitted := [some { websiteId := website.id,
                       vectorDbId := website.vector_db_id, url := website.url }] }

/-- Failure data of the delete POST: the optional backend error body
(`err.response?.data?.error`) and the error object message (`err.message`). -/
structure DeleteErr where
  backendError : Option String
  message : String
  deriving Repr

/-- Settlement of the delete POST; on success the subsequent roster
re-fetch has its own outcome. -/
inductive DeleteOutcome where
  | ok (refetch : FetchOutcome)
  | fail (e : DeleteErr)

/-- The translated file-lock error text (part_001 lines 79-82). -/
def fileLockErrorText : String :=
  "⚠️ Cannot delete: Database files are in use.\n\n" ++
  "Please restart the Django server and try again. This ensures all database connections are properly closed."

/-- The error string displayed after a failed delete (part_001 lines
75-85): the backend error body, or the error message as fallback, is
pattern-matched for the file-lock wording. -/
def deleteErrorText (e : DeleteErr) : String :=
  let errorMessage := jsOrElse e.backendError e.message
  if jsIncludes errorMessage "process is using" ||
      jsIncludes errorMessage "restart the server" then
    fileLockErrorText
  else
    "Failed to delete website: " ++ errorMessage

/-- Outcome of VectorSelection.handleDeleteWebsite. -/
structure DeleteResult where
  state : RosterState
  emitted : List (Option SelectedSite)
  requests : List RosterRequest
  deriving Repr

/-- The guard `selectedWebsite?.id === website.id` (part_001 line 63):
`undefined === id` is false when nothing is selected. -/
def rowIsSelected (selectedWebsite : Option Website) (website : Website) : Bool :=
  match selectedWebsite with
  | some sel => sel.id.strictEq website.id
  | none => false

/-- VectorSelection.handleDeleteWebsite (part_001 lines 42-89), with the
`window.confirm` answer and the request settlements as parameters.  On
success the selection is cleared when the deleted row was selected
(`selectedWebsite?.id === website.id`), then the roster is re-fetched;
on failure only the error string is set.  `finally` clears `deletingId`. -/
def handleDeleteWebsite (s : RosterState) (website : Website)
    (confirmDelete : Bool) (outcome : DeleteOutcome) : DeleteResult :=
  if confirmDelete = false then { state := s, emitted := [], requests := [] }
  else
    let s1 : RosterState := { s with deletingId := some website.id, error := "" }
    match outcome with
    | .ok refetch =>
      let selMatches := rowIsSelected s1.selectedWebsite website
      let s2 := if selMatches then { s1 with selectedWebsite := none } else s1
      let emitted : List (Option SelectedSite) := if selMatches then [none] else []
      let s3 := fetchWebsites { s2 with isLoading := true } refetch
      { state := { s3 with deletingId := none },
        emitted := emitted,
        requests := [.deleteVectorized website.vector_db_id, .getWebsites] }
    | .fail e =>
      { state := { s1 with error := deleteErrorText e, deletingId := none },
        emitted := [],
        requests := [.deleteVectorized website.vector_db_id] }

/-- The system-info snapshot returned by `GET /api/websites/system_info/`. -/
structure SysInfo where
  ollama_running : Bool
  vectorized_databases : List JsVal
  websites : List Website
  deriving Repr

/-- One entry of the expanded vectorized-database list rendered by
SystemInfo: the owning site's url when resolved, or the unknown label. -/
inductive DbEntry where
  | known (url : String) (dbId : JsVal)
  | unknown (dbId : JsVal)
  deriving DecidableEq, Repr

/-- The expanded database list of SystemInfo (part_000 lines 113-128):
each id in `vectorized_databases` resolved through
`websites.find(w => w.vector_db_id === dbId)`. -/
def renderDbList (info : SysInfo) : List DbEntry :=
  info.vectorized_databases.map fun dbId =>
    match info.websites.find? (fun w => w.vector_db_id.strictEq dbId) with
    | some website => .known website.url dbId
    | none => .unknown dbId

/-- Helper for the React effect model: number of later renders whose
dependency snapshot differs from the previous one. -/
def countChanges {α : Type} [DecidableEq α] : α → List α → Nat
  | _, [] => 0
  | prev, d :: ds => (if prev = d then 0 else 1) + countChanges d ds

/-- Number of runs of a React `useEffect` across a render sequence, given
the dependency-array snapshot at each render: the effect runs after the
first render and after every render whose snapshot differs from the
previous render's. -/
def effectRunCount {α : Type} [DecidableEq α] : List α → Nat
  | [] => 0
  | d :: ds => 1 + countChanges d ds

/-- Number of system-info fetches across `renders` renders of SystemInfo:
its fetch effect (part_000 lines 55-68) has dependency array `[]`, whose
snapshot is the same empty tuple on every render. -/
def sysInfoFetchCount (renders : Nat) : Nat :=
  effectRunCount (List.replicate renders ())

/-- The initial VectorSelection state (part_001 lines 6-10). -/
def rosterInit : RosterState :=
  { websites := [], isLoading := true, error := "",
    selectedWebsite := none, deletingId := none }

/-- A sample vectorized roster row used to instantiate theorems. -/
def sampleSite : Website :=
  { id := .num 3, url := "https://a.example", title := none,
    vector_db_id := .num 7, date_scraped := "2024-01-01" }

/-- A sample system-info snapshot used to instantiate theorems. -/
def sampleInfo : SysInfo :=
  { ollama_running := true, vectorized_databases := [.num 7, .num 9],
    websites := [sampleSite] }

/-- The effect on empty deps never re-fires: no later render changes it. -/
theorem countChanges_replicate_unit (n : Nat) :
    countChanges () (List.replicate n ()) = 0 := by
  induction n with
  | zero => rfl
  | succ m ih => simp [List.replicate_succ, countChanges, ih]

/-- Claim C1: an accepted chat submission (nonblank trimmed input, a
selected site) issues exactly one POST with body
`{vector_db_id: site.vectorDbId, query: input}` and appends exactly two
transcript entries, the user message with the submitted text followed by
the settlement message, assistant on success and error on failure; a
blank input or missing selection is a no-op with no request. -/
theorem chat_submit_two_entries (input : String)
    (selectedWebsite : Option SelectedSite) (messages : List ChatMsg)
    (now : Nat) (outcome : Except String String) :
    ((jsTrim input = "" ∨ selectedWebsite = none) →
      chatHandleSubmit input selectedWebsite messages now outcome = (messages, [])) ∧
    (∀ site, selectedWebsite = some site → jsTrim input ≠ "" →
      chatHandleSubmit input selectedWebsite messages now outcome =
        (messages ++ [{ id := now, text := input, sender := "user" },
                      settleMsg now outcome],
         [{ vector_db_id := site.vectorDbId, query := input }]) ∧
      (∀ answer, outcome = .ok answer →
        settleMsg now outcome = { id := now + 1, text := answer, sender := "ai" }) ∧
      (∀ errBody, outcome = .error errBody →
        settleMsg now outcome =
          { id := now + 1, text := chatErrorText, sender := "system", isError := true })) := by
  constructor
  · rintro (h | h)
    · cases selectedWebsite <;> simp [chatHandleSubmit, h]
    · subst h
      rfl
  · rintro site rfl hne
    refine ⟨by simp [chatHandleSubmit, hne], ?_, ?_⟩
    · rintro answer rfl
      rfl
    · rintro errBody rfl
      rfl

/-- Witness for C1, at the scenario of the spec: `vectorDbId = 7` and the
query "What is this about?" on an answering backend. -/
theorem chat_submit_two_entries_witness :
    chatHandleSubmit "What is this about?"
        (some { websiteId := .num 1, vectorDbId := .num 7, url := "https://example.com" })
        [] 100 (.ok "It is a blog.") =
      ([{ id := 100, text := "What is this about?", sender := "user" },
        { id := 101, text := "It is a blog.", sender := "ai" }],
       [{ vector_db_id := .num 7, query := "What is this about?" }]) := by
  have h := (chat_submit_two_entries "What is this about?"
      (some { websiteId := .num 1, vectorDbId := .num 7, url := "https://example.com" })
      [] 100 (.ok "It is a blog.")).2
      { websiteId := .num 1, vectorDbId := .num 7, url := "https://example.com" }
      rfl (by decide)
  simpa [settleMsg] using h.1

/-- Claim C2: the URL form rejects the empty string and any string that
does not parse as an absolute URL with a local error and no request; the
scrape request is issued only for inputs that parse as an absolute URL. -/
theorem url_form_rejects_invalid (url : String) (parsesAsURL : String → Bool)
    (outcome : Except ScrapeErr ScrapeResp) :
    ((url = "" ∨ parsesAsURL url = false) →
      (urlHandleSubmit url parsesAsURL outcome).requests = [] ∧
      (urlHandleSubmit url parsesAsURL outcome).error ≠ "") ∧
    ((urlHandleSubmit url parsesAsURL outcome).requests ≠ [] →
      url ≠ "" ∧ parsesAsURL url = true) := by
  by_cases hurl : url = ""
  · subst hurl
    refine ⟨fun _ => ⟨?_, ?_⟩, fun hreq => ?_⟩
    · simp [urlHandleSubmit]
    · simp [urlHandleSubmit]
    · exact absurd (by simp [urlHandleSubmit]) hreq
  · by_cases hparse : parsesAsURL url = true
    · refine ⟨?_, fun _ => ⟨hurl, hparse⟩⟩
      rintro (h | h)
      · exact absurd h hurl
      · rw [hparse] at h
        cases h
    · have hfalse : parsesAsURL url = false := by
        cases hp : parsesAsURL url
        · rfl
        · exact absurd hp hparse
      refine ⟨fun _ => ⟨?_, ?_⟩, fun hreq => ?_⟩
      · simp [urlHandleSubmit, hurl, hfalse]
      · simp [urlHandleSubmit, hurl, hfalse]
      · exact absurd (by simp [urlHandleSubmit, hurl, hfalse]) hreq

/-- Witness for C2, at the scenario of the spec: submitting "not-a-url"
is rejected locally with no request issued. -/
theorem url_form_rejects_invalid_witness :
    (urlHandleSubmit "not-a-url" (fun _ => false)
        (.ok { website_id := .num 1, vector_db_id := .num 2, pages_scraped := 5 })).requests = [] ∧
    (urlHandleSubmit "not-a-url" (fun _ => false)
        (.ok { website_id := .num 1, vector_db_id := .num 2, pages_scraped := 5 })).error ≠ "" :=
  (url_form_rejects_invalid "not-a-url" (fun _ => false)
      (.ok { website_id := .num 1, vector_db_id := .num 2, pages_scraped := 5 })).1
    (Or.inr rfl)

/-- Claim C6: on every change of the selected site the chat transcript is
reset to the empty list, and the rest of the run proceeds exactly as from
a fresh state with an empty transcript, so no message for the new site is
appended before the reset. -/
theorem chat_transcript_reset (s : ChatState) (w : Option SelectedSite)
    (events : List ChatEvent) :
    (chatStep s (.selectSite w)).messages = [] ∧
    chatRun (chatStep s (.selectSite w)) events =
      chatRun { selectedWebsite := w, messages := [] } events :=
  ⟨rfl, rfl⟩

/-- Claim C9: every failed chat request appends the fixed generic error
message with sender system and isError true, and the result is
independent of the backend error body, which is therefore never
displayed. -/
theorem chat_error_generic (input : String) (site : SelectedSite)
    (messages : List ChatMsg) (now : Nat) (errBody : String)
    (hne : jsTrim input ≠ "") :
    (chatHandleSubmit input (some site) messages now (.error errBody)).1 =
      messages ++ [{ id := now, text := input, sender := "user" },
        { id := now + 1, text := chatErrorText, sender := "system", isError := true }] ∧
    (∀ otherBody : String,
      chatHandleSubmit input (some site) messages now (.error errBody) =
        chatHandleSubmit input (some site) messages now (.error otherBody)) := by
  constructor
  · simp [chatHandleSubmit, hne, settleMsg]
  · intro otherBody
    simp [chatHandleSubmit, hne, settleMsg]

/-- Witness for C9: a failed request with backend body "boom" appends the
generic text, and the transcript is the same as for backend body "other". -/
theorem chat_error_generic_witness :
    (chatHandleSubmit "hello"
        (some { websiteId := .num 1, vectorDbId := .num 7, url := "https://example.com" })
        [] 5 (.error "boom")).1 =
      [{ id := 5, text := "hello", sender := "user" },
       { id := 6, text := chatErrorText, sender := "system", isError := true }] ∧
    chatHandleSubmit "hello"
        (some { websiteId := .num 1, vectorDbId := .num 7, url := "https://example.com" })
        [] 5 (.error "boom") =
      chatHandleSubmit "hello"
        (some { websiteId := .num 1, vectorDbId := .num 7, url := "https://example.com" })
        [] 5 (.error "other") := by
  have h := chat_error_generic "hello"
      { websiteId := .num 1, vectorDbId := .num 7, url := "https://example.com" }
      [] 5 "boom" (by decide)
  exact ⟨h.1, h.2 "other"⟩

/-- Claim C3: after a successful roster fetch, an entry is retained and
rendered exactly when its vector_db_id field is truthy; an entry lacking
a vector database id never appears in the roster. -/
theorem roster_only_vectorized (s : RosterState) (resp : List Website) (w : Website) :
    (w ∈ (fetchWebsites s (.ok resp)).websites ↔
      w ∈ resp ∧ w.vector_db_id.truthy = true) ∧
    (w.vector_db_id = .null → w ∉ (fetchWebsites s (.ok resp)).websites) := by
  have hiff : w ∈ (fetchWebsites s (.ok resp)).websites ↔
      w ∈ resp ∧ w.vector_db_id.truthy = true := by
    simp [fetchWebsites, vectorizedWebsites, List.mem_filter]
  refine ⟨hiff, fun hnull hmem => ?_⟩
  have h := (hiff.mp hmem).2
  rw [hnull] at h
  simp [JsVal.truthy] at h

/-- Witness for C3: a row whose vector_db_id is null is dropped by the
fetch filter. -/
theorem roster_only_vectorized_witness :
    ({ id := .num 4, url := "https://b.example", title := none,
       vector_db_id := .null, date_scraped := "2024-01-02" } : Website) ∉
      (fetchWebsites rosterInit
        (.ok [{ id := .num 4, url := "https://b.example", title := none,
                vector_db_id := .null, date_scraped := "2024-01-02" }])).websites :=
  (roster_only_vectorized rosterInit _ _).2 rfl

/-- Claim C4: on a successful delete the roster is recomputed from the
fresh backend response (a re-fetch, not a local removal), the GET is
issued alongside the delete, and the selection (local and emitted to the
caller) is cleared exactly when the deleted row was the selected one and
left unchanged otherwise. -/
theorem delete_success_refetch_and_selection (s : RosterState) (website : Website)
    (resp : List Website) (refetch : FetchOutcome) :
    (handleDeleteWebsite s website true (.ok (.ok resp))).state.websites =
      vectorizedWebsites resp ∧
    (handleDeleteWebsite s website true (.ok (.ok resp))).state.selectedWebsite =
      (if rowIsSelected s.selectedWebsite website then none else s.selectedWebsite) ∧
    (handleDeleteWebsite s website true (.ok (.ok resp))).emitted =
      (if rowIsSelected s.selectedWebsite website then [none] else []) ∧
    (handleDeleteWebsite s website true (.ok refetch)).requests =
      [.deleteVectorized website.vector_db_id, .getWebsites] := by
  refine ⟨?_, ?_, ?_, ?_⟩ <;>
    cases hsel : rowIsSelected s.selectedWebsite website <;>
      simp [handleDeleteWebsite, fetchWebsites, hsel]

/-- Claim C5: a failed delete whose resolved error message carries the
file-lock wording displays the fixed restart instruction, which is not
the raw backend string; any other failed delete displays a string that
contains the resolved message (the backend body, or the error-object
message as fallback). -/
theorem delete_error_translation (s : RosterState) (website : Website) (e : DeleteErr) :
    (handleDeleteWebsite s website true (.fail e)).state.error = deleteErrorText e ∧
    ((jsIncludes (jsOrElse e.backendError e.message) "process is using" = true ∨
      jsIncludes (jsOrElse e.backendError e.message) "restart the server" = true) →
      deleteErrorText e = fileLockErrorText ∧
      deleteErrorText e ≠ jsOrElse e.backendError e.message) ∧
    (jsIncludes (jsOrElse e.backendError e.message) "process is using" = false →
      jsIncludes (jsOrElse e.backendError e.message) "restart the server" = false →
      jsIncludes (deleteErrorText e) (jsOrElse e.backendError e.message) = true) := by
  refine ⟨by simp [handleDeleteWebsite], ?_, ?_⟩
  · intro h
    have hcond : (jsIncludes (jsOrElse e.backendError e.message) "process is using" ||
        jsIncludes (jsOrElse e.backendError e.message) "restart the server") = true := by
      rcases h with h | h <;> simp [h]
    have hfl : deleteErrorText e = fileLockErrorText := by
      simp [deleteErrorText, hcond]
    refine ⟨hfl, fun heq => ?_⟩
    have hem : jsOrElse e.backendError e.message = fileLockErrorText :=
      heq.symm.trans hfl
    rw [hem] at h
    revert h
    decide
  · intro h1 h2
    have hother : deleteErrorText e =
        "Failed to delete website: " ++ jsOrElse e.backendError e.message := by
      simp [deleteErrorText, h1, h2]
    rw [hother]
    exact jsIncludes_append _ _

/-- Witness for C5, at the scenario of the spec: the backend body carries
"process is using", and the displayed text is the restart instruction,
not the raw backend string. -/
theorem delete_error_translation_witness :
    deleteErrorText
      { backendError := some "A process is using this file",
        message := "Request failed" } = fileLockErrorText ∧
    deleteErrorText
      { backendError := some "A process is using this file",
        message := "Request failed" } ≠
      jsOrElse (some "A process is using this file") "Request failed" :=
  (delete_error_translation rosterInit sampleSite
      { backendError := some "A process is using this file",
        message := "Request failed" }).2.1
    (Or.inl (by decide))

/-- Claim C7: a successful scrape surfaces `{websiteId, vectorDbId, url}`
to the caller exactly once, App overwrites the selected site with exactly
that triple, and the success message contains both the returned page
count and the submitted url. -/
theorem scrape_success_surfaces (url : String) (parsesAsURL : String → Bool)
    (resp : ScrapeResp) (sel : Option SelectedSite)
    (hne : url ≠ "") (hp : parsesAsURL url = true) :
    (urlHandleSubmit url parsesAsURL (.ok resp)).emitted =
      [{ websiteId := resp.website_id, vectorDbId := resp.vector_db_id, url := url }] ∧
    appHandleWebsiteVectorized sel
        { websiteId := resp.website_id, vectorDbId := resp.vector_db_id, url := url } =
      some { websiteId := resp.website_id, vectorDbId := resp.vector_db_id, url := url } ∧
    jsIncludes (urlHandleSubmit url parsesAsURL (.ok resp)).success
      (toString resp.pages_scraped) = true ∧
    jsIncludes (urlHandleSubmit url parsesAsURL (.ok resp)).success url = true := by
  have hsucc : (urlHandleSubmit url parsesAsURL (.ok resp)).success =
      "Successfully scraped and vectorized " ++ toString resp.pages_scraped ++
        " pages from " ++ url := by
    simp [urlHandleSubmit, hne, hp]
  refine ⟨by simp [urlHandleSubmit, hne, hp], rfl, ?_, ?_⟩
  · rw [hsucc]
    simpa [jsIncludes, String.data_append, List.append_assoc] using
      listHasSub_infix "Successfully scraped and vectorized ".data
        (toString resp.pages_scraped).data (" pages from ".data ++ url.data)
  · rw [hsucc]
    exact jsIncludes_append _ url

/-- Witness for C7, at the scenario of the spec: scraping
https://example.com succeeds with 5 pages. -/
theorem scrape_success_surfaces_witness :
    (urlHandleSubmit "https://example.com" (fun _ => true)
        (.ok { website_id := .num 1, vector_db_id := .num 2, pages_scraped := 5 })).emitted =
      [{ websiteId := .num 1, vectorDbId := .num 2, url := "https://example.com" }] ∧
    jsIncludes (urlHandleSubmit "https://example.com" (fun _ => true)
        (.ok { website_id := .num 1, vector_db_id := .num 2,
               pages_scraped := 5 })).success (toString (5 : Nat)) = true ∧
    jsIncludes (urlHandleSubmit "https://example.com" (fun _ => true)
        (.ok { website_id := .num 1, vector_db_id := .num 2,
               pages_scraped := 5 })).success "https://example.com" = true := by
  have h := scrape_success_surfaces "https://example.com" (fun _ => true)
      { website_id := .num 1, vector_db_id := .num 2, pages_scraped := 5 } none
      (by decide) rfl
  exact ⟨h.1, h.2.2.1, h.2.2.2⟩

/-- Claim C8: the status-panel fetch effect has an empty dependency array
and so runs exactly once over any nonempty render sequence; the expanded
list has one entry per id in vectorized_databases, each resolved to the
url of a site of the snapshot whose vector_db_id strictly equals the id
when such a site exists, and labeled unknown when no site matches. -/
theorem system_info_once_and_resolution (info : SysInfo) :
    (∀ renders : Nat, 1 ≤ renders → sysInfoFetchCount renders = 1) ∧
    (renderDbList info).length = info.vectorized_databases.length ∧
    (∀ (i : Nat) (dbId : JsVal), info.vectorized_databases[i]? = some dbId →
      ((∃ website, website ∈ info.websites ∧
          website.vector_db_id.strictEq dbId = true ∧
          (renderDbList info)[i]? = some (DbEntry.known website.url dbId)) ∨
       ((∀ website ∈ info.websites, website.vector_db_id.strictEq dbId = false) ∧
        (renderDbList info)[i]? = some (DbEntry.unknown dbId)))) := by
  refine ⟨?_, by simp [renderDbList], ?_⟩
  · intro renders h
    obtain ⟨n, rfl⟩ : ∃ n, renders = n + 1 := ⟨renders - 1, by omega⟩
    simp [sysInfoFetchCount, List.replicate_succ, effectRunCount,
      countChanges_replicate_unit]
  · intro i dbId hdb
    have hmap : (renderDbList info)[i]? =
        some (match info.websites.find? (fun w => w.vector_db_id.strictEq dbId) with
              | some website => DbEntry.known website.url dbId
              | none => DbEntry.unknown dbId) := by
      simp [renderDbList, List.getElem?_map, hdb]
    cases hf : info.websites.find? (fun w => w.vector_db_id.strictEq dbId) with
    | some website =>
      left
      refine ⟨website, List.mem_of_find?_eq_some hf, ?_, ?_⟩
      · have hp := List.find?_some hf
        simpa using hp
      · rw [hmap, hf]
    | none =>
      right
      refine ⟨fun website hw => ?_, by rw [hmap, hf]⟩
      have hx := List.find?_eq_none.mp hf website hw
      simpa using hx

/-- Witness for C8: one fetch over three renders, and the first id of the
sample snapshot resolves to the owning site. -/
theorem system_info_once_and_resolution_witness :
    sysInfoFetchCount 3 = 1 ∧
    ((∃ website, website ∈ sampleInfo.websites ∧
        website.vector_db_id.strictEq (.num 7) = true ∧
        (renderDbList sampleInfo)[0]? = some (DbEntry.known website.url (.num 7))) ∨
     ((∀ website ∈ sampleInfo.websites,
          website.vector_db_id.strictEq (.num 7) = false) ∧
      (renderDbList sampleInfo)[0]? = some (DbEntry.unknown (.num 7)))) :=
  ⟨(system_info_once_and_resolution sampleInfo).1 3 (by decide),
   (system_info_once_and_resolution sampleInfo).2.2 0 (.num 7) rfl⟩

/-- Claim C10: a failed delete leaves the local websites list and the
local selection untouched and emits nothing to the caller; only the
error string changes and the per-row deleting flag is cleared. -/
theorem delete_failure_frame (s : RosterState) (website : Website) (e : DeleteErr) :
    (handleDeleteWebsite s website true (.fail e)).state.websites = s.websites ∧
    (handleDeleteWebsite s website true (.fail e)).state.selectedWebsite =
      s.selectedWebsite ∧
    (handleDeleteWebsite s website true (.fail e)).emitted = [] ∧
    (handleDeleteWebsite s website true (.fail e)).state.isLoading = s.isLoading ∧
    (handleDeleteWebsite s website true (.fail e)).state.deletingId = none ∧
    (handleDeleteWebsite s website true (.fail e)).state.error = deleteErrorText e := by
  refine ⟨?_, ?_, ?_, ?_, ?_, ?_⟩ <;> simp [handleDeleteWebsite]

end ChatSite
